import Mathlib

/-!
# Verification of the Pulsetto device session controller

A shallow embedding of `src/controller.js` (class `PulsettoController`).

Strings manipulated by the controller (wire lines, mode characters, DOM text)
are modelled as `List Char`, with structural-recursive counterparts of the
JavaScript string operations the source uses (`startsWith`, `includes`,
`split(sep)[1]`, `trim`).  Literals are written as `"...".data`.

Stateful methods become pure functions `PulsettoController → ... → OpResult`,
where `OpResult` carries the successor state, the list of transport writes
performed by the call (each already newline-terminated, as built by
`sendCommand`), and the list of `alert(...)` error messages raised.

DOM elements the controller reads or writes (the device-status labels, the
timer label, the intensity slider, the start button) are modelled as fields of
the state; JavaScript timers are modelled by the boolean presence of a stored
handle (`timerInterval`, `statusPolling`) and, for `loadPreset`'s one-shot
auto-stop, by returning the scheduled delay in milliseconds.
-/

namespace Pulsetto

/-! ## String primitives (JavaScript semantics on `List Char`) -/

/-- JavaScript `s.startsWith(p)`. -/
def strStartsWith : List Char → List Char → Bool
  | _, [] => true
  | [], _ :: _ => false
  | a :: s, b :: p => a == b && strStartsWith s p

/-- JavaScript `s.includes(sub)`. -/
def strIncludes : List Char → List Char → Bool
  | [], sub => strStartsWith [] sub
  | a :: t, sub => strStartsWith (a :: t) sub || strIncludes t sub

/-- Everything after the first occurrence of `sep` in `s` (or `[]` if absent). -/
def afterFirst : List Char → List Char → List Char
  | [], _ => []
  | a :: t, sep =>
    if strStartsWith (a :: t) sep then (a :: t).drop sep.length
    else afterFirst t sep

/-- Everything before the first occurrence of `sep` in `s` (all of `s` if absent). -/
def upToFirst : List Char → List Char → List Char
  | [], _ => []
  | a :: t, sep =>
    if strStartsWith (a :: t) sep then []
    else a :: upToFirst t sep

/-- JavaScript `s.split(sep)[1]`: the segment between the first and second
occurrence of `sep` (the rest of the string if `sep` occurs only once). -/
def splitSecond (s sep : List Char) : List Char :=
  upToFirst (afterFirst s sep) sep

def isWs (c : Char) : Bool := c == ' ' || c == '\t' || c == '\n' || c == '\r'

/-- JavaScript `s.trim()`: strip whitespace from both ends. -/
def trimChars (l : List Char) : List Char :=
  ((l.dropWhile isWs).reverse.dropWhile isWs).reverse

/-! ## Protocol codec (decode side)

The classification implicit in `handleNotification` (controller.js lines
130-148): four rules tried in order, first match wins. -/

inductive NotifyEvent where
  | deviceNameEvent (v : List Char)
  | firmwareEvent (v : List Char)
  | batteryEvent (v : List Char)
  | modeEvent (v : List Char)
  | unrecognizedEvent (raw : List Char)
deriving DecidableEq, Repr

/-- Mode-character to display-label mapping of controller.js line 145. -/
def modeLabelOf (m : List Char) : List Char :=
  if m = "0".data then "OFF".data
  else if m = "A".data then "LEFT".data
  else if m = "C".data then "RIGHT".data
  else if m = "D".data then "BOTH".data
  else m

/-- Decode one inbound notification line (controller.js lines 136-147). -/
def decodeLine (value : List Char) : NotifyEvent :=
  if strStartsWith value "Pulsetto_".data then
    .deviceNameEvent (trimChars value)
  else if strStartsWith value "fw:".data then
    .firmwareEvent (trimChars value)
  else if strIncludes value "Batt:".data then
    .batteryEvent (trimChars (splitSecond value "Batt:".data))
  else if strIncludes value "mode:".data then
    .modeEvent (modeLabelOf (trimChars (splitSecond value "mode:".data)))
  else
    .unrecognizedEvent value

def isBatteryEvent : NotifyEvent → Bool
  | .batteryEvent _ => true
  | _ => false

def isModeEvent : NotifyEvent → Bool
  | .modeEvent _ => true
  | _ => false

/-! ## Controller state -/

structure PulsettoController where
  /-- `this.device` is non-null. -/
  device : Bool
  /-- `this.server` is non-null. -/
  server : Bool
  /-- `this.service` is non-null. -/
  service : Bool
  /-- `this.writeCharacteristic` is non-null. -/
  writeCharacteristic : Bool
  /-- `this.notifyCharacteristic` is non-null. -/
  notifyCharacteristic : Bool
  /-- Notifications started and listener attached. -/
  subscribed : Bool
  currentMode : List Char
  currentIntensity : Int
  sessionActive : Bool
  /-- `this.sessionStartTime` (ms timestamp), `none` for JavaScript `null`. -/
  sessionStartTime : Option Nat
  /-- A 1-second elapsed-time interval handle is stored. -/
  timerInterval : Bool
  /-- The 3-second status-poll interval has been started. -/
  statusPolling : Bool
  /-- DOM `#deviceName` text. -/
  domDeviceName : List Char
  /-- DOM `#firmware` text. -/
  domFirmware : List Char
  /-- DOM `#battery` text. -/
  domBattery : List Char
  /-- DOM `#mode` text. -/
  domMode : List Char
  /-- DOM `#timer` text. -/
  domTimer : List Char
  /-- DOM `#startBtn.disabled`. -/
  startBtnDisabled : Bool
  /-- DOM `#intensitySlider.value` (read back by `startSession`). -/
  intensitySliderValue : Int
deriving DecidableEq, Repr

/-- Result of one controller method call: successor state, transport writes
(newline-terminated lines, in order), and `alert` error messages. -/
structure OpResult where
  state : PulsettoController
  writes : List (List Char)
  alerts : List (List Char)
deriving DecidableEq, Repr

/-- The constructor plus `initUI` (controller.js lines 3-66): no transport,
mode `'D'`, intensity 5, no session; the slider is initialised from
`currentIntensity`. -/
def initialState : PulsettoController where
  device := false
  server := false
  service := false
  writeCharacteristic := false
  notifyCharacteristic := false
  subscribed := false
  currentMode := "D".data
  currentIntensity := 5
  sessionActive := false
  sessionStartTime := none
  timerInterval := false
  statusPolling := false
  domDeviceName := []
  domFirmware := []
  domBattery := []
  domMode := []
  domTimer := "00:00".data
  startBtnDisabled := false
  intensitySliderValue := 5

/-! ## Operations -/

/-- `sendCommand(cmd)` (lines 119-128): returns silently when no write
characteristic is held, otherwise writes `cmd + '\n'`. Never mutates state. -/
def sendCommand (s : PulsettoController) (cmd : List Char) : OpResult :=
  if s.writeCharacteristic then ⟨s, [cmd ++ "\n".data], []⟩ else ⟨s, [], []⟩

/-- `handleNotification` (lines 130-148): classify the line and update the
matching DOM device-status field (battery gets a `V` suffix, line 142). -/
def handleNotification (s : PulsettoController) (value : List Char) :
    PulsettoController :=
  match decodeLine value with
  | .deviceNameEvent v => { s with domDeviceName := v }
  | .firmwareEvent v => { s with domFirmware := v }
  | .batteryEvent v => { s with domBattery := v ++ "V".data }
  | .modeEvent v => { s with domMode := v }
  | .unrecognizedEvent _ => s

/-- `setMode(mode)` (lines 150-153): optimistic local update, then send. -/
def setMode (s : PulsettoController) (mode : List Char) : OpResult :=
  sendCommand { s with currentMode := mode } mode

/-- `setIntensity(level)` (lines 155-158): optimistic local update, then send
the decimal string. -/
def setIntensity (s : PulsettoController) (level : Int) : OpResult :=
  sendCommand { s with currentIntensity := level } (toString level).data

/-- `startSession()` (lines 160-181): alert if `currentMode` is falsy (empty);
otherwise set the active flag and start timestamp, re-send the mode, read the
intensity slider and send it when positive, store the 1-second ticker handle
and disable the start button. `now` stands for `Date.now()`. -/
def startSession (s : PulsettoController) (now : Nat) : OpResult :=
  if s.currentMode = [] then
    ⟨s, [], ["Please select a mode first".data]⟩
  else
    let r1 := setMode { s with sessionActive := true,
                               sessionStartTime := some now } s.currentMode
    let intensity := r1.state.intensitySliderValue
    let r2 := if intensity > 0 then setIntensity r1.state intensity
              else ⟨r1.state, [], []⟩
    ⟨{ r2.state with timerInterval := true, startBtnDisabled := true },
      r1.writes ++ r2.writes, []⟩

/-- `stopSession()` (lines 183-199): clear the active flag, clear the stored
ticker handle if any, write the end-session command `-`, reset the timer label
and re-enable the start button.  Note: `sessionStartTime` is not touched. -/
def stopSession (s : PulsettoController) : OpResult :=
  let s1 := { s with sessionActive := false }
  let s2 := if s1.timerInterval then { s1 with timerInterval := false } else s1
  let r := sendCommand s2 "-".data
  ⟨{ r.state with domTimer := "00:00".data, startBtnDisabled := false },
    r.writes, []⟩

/-- One tick of the status-poll interval set up by `startStatusPolling`
(lines 212-218): send `Q` only when a write characteristic is held. -/
def statusPollTick (s : PulsettoController) : OpResult :=
  if s.writeCharacteristic then sendCommand s "Q".data else ⟨s, [], []⟩

/-- `onConnected()` (lines 98-117): issue the post-connect query burst
`i`, `v`, `Q` and start the status-poll interval. -/
def onConnected (s : PulsettoController) : OpResult :=
  let r1 := sendCommand s "i".data
  let r2 := sendCommand r1.state "v".data
  let r3 := sendCommand r2.state "Q".data
  ⟨{ r3.state with statusPolling := true },
    r1.writes ++ r2.writes ++ r3.writes, []⟩

/-- The successive awaited transport steps of `connect()` (lines 68-96), in
source order; a thrown error at any of them lands in the `catch` block. -/
inductive ConnectStep where
  | discovery
  | gattConnect
  | getService
  | getWriteCharacteristic
  | getNotifyCharacteristic
  | startNotifications
deriving DecidableEq, Repr

/-- `connect()` (lines 68-96).  `failAt = some step` means the transport threw
at that step with message `msg`; the fields assigned before the failing step
keep their new values (the `catch` block only logs and alerts, it resets
nothing), and exactly one alert `'Failed to connect: ' + msg` is raised.
On `failAt = none` every handle is acquired and `onConnected` runs. -/
def connect (s : PulsettoController) (failAt : Option ConnectStep)
    (msg : List Char) : OpResult :=
  let fail := fun st => OpResult.mk st [] ["Failed to connect: ".data ++ msg]
  if failAt = some .discovery then fail s else
  let s1 := { s with device := true }
  if failAt = some .gattConnect then fail s1 else
  let s2 := { s1 with server := true }
  if failAt = some .getService then fail s2 else
  let s3 := { s2 with service := true }
  if failAt = some .getWriteCharacteristic then fail s3 else
  let s4 := { s3 with writeCharacteristic := true }
  if failAt = some .getNotifyCharacteristic then fail s4 else
  let s5 := { s4 with notifyCharacteristic := true }
  if failAt = some .startNotifications then fail s5 else
  onConnected { s5 with subscribed := true }

structure Preset where
  name : List Char
  mode : List Char
  intensity : Int
  /-- `duration` in minutes (rendered as `durationMinutes` in the spec). -/
  duration : Nat
deriving DecidableEq, Repr

/-- `loadPreset(preset)` (lines 264-282): set the mode and the intensity
slider from the preset, start a session, and schedule `stopSession` after
`preset.duration * 60 * 1000` milliseconds.  The second component is that
scheduled delay; no handle to the timeout is kept, so it is never cancelled. -/
def loadPreset (s : PulsettoController) (p : Preset) (now : Nat) :
    OpResult × Nat :=
  let s1 := { s with currentMode := p.mode, intensitySliderValue := p.intensity }
  (startSession s1 now, p.duration * 60 * 1000)

/-- The spec's `Idle` state: no transport handle of any kind is held. -/
def isIdle (s : PulsettoController) : Bool :=
  !s.device && !s.server && !s.service && !s.writeCharacteristic &&
    !s.notifyCharacteristic && !s.subscribed

/-- The observed DeviceStatus snapshot (spec §3): the four DOM-held
device-reported fields. -/
def deviceStatus (s : PulsettoController) :
    List Char × List Char × List Char × List Char :=
  (s.domDeviceName, s.domFirmware, s.domBattery, s.domMode)

/-- States reachable from construction by any sequence of controller
operations, with arbitrary inputs and transport outcomes. -/
inductive Reachable : PulsettoController → Prop where
  | init : Reachable initialState
  | connect {s} (failAt msg) : Reachable s → Reachable (connect s failAt msg).state
  | notify {s} (value) : Reachable s → Reachable (handleNotification s value)
  | setMode {s} (m) : Reachable s → Reachable (setMode s m).state
  | setIntensity {s} (n) : Reachable s → Reachable (setIntensity s n).state
  | start {s} (now) : Reachable s → Reachable (startSession s now).state
  | stop {s} : Reachable s → Reachable (stopSession s).state
  | poll {s} : Reachable s → Reachable (statusPollTick s).state
  | preset {s} (p now) : Reachable s → Reachable (loadPreset s p now).1.state

/-- A connected, no-session state used as a concrete starting point in
witnesses: the result of a fully successful `connect` from construction. -/
def readyState : PulsettoController :=
  (connect initialState none []).state

/-- The transport-handle fields of the state, bundled. -/
def connFields (s : PulsettoController) : Bool × Bool × Bool × Bool × Bool × Bool :=
  (s.device, s.server, s.service, s.writeCharacteristic,
    s.notifyCharacteristic, s.subscribed)

/-! ## Shared characterisation lemmas -/

@[simp] theorem sendCommand_state (s : PulsettoController) (cmd : List Char) :
    (sendCommand s cmd).state = s := by
  unfold sendCommand; split <;> rfl

@[simp] theorem sendCommand_alerts (s : PulsettoController) (cmd : List Char) :
    (sendCommand s cmd).alerts = [] := by
  unfold sendCommand; split <;> rfl

theorem sendCommand_writes (s : PulsettoController) (cmd : List Char) :
    (sendCommand s cmd).writes =
      if s.writeCharacteristic then [cmd ++ "\n".data] else [] := by
  unfold sendCommand; split <;> simp_all

@[simp] theorem setMode_state (s : PulsettoController) (m : List Char) :
    (setMode s m).state = { s with currentMode := m } := by
  unfold setMode; rw [sendCommand_state]

@[simp] theorem setIntensity_state (s : PulsettoController) (n : Int) :
    (setIntensity s n).state = { s with currentIntensity := n } := by
  unfold setIntensity; rw [sendCommand_state]

theorem stopSession_state (s : PulsettoController) :
    (stopSession s).state =
      { s with sessionActive := false, timerInterval := false,
               domTimer := "00:00".data, startBtnDisabled := false } := by
  unfold stopSession
  simp only [sendCommand_state]
  split <;> simp_all

@[simp] theorem stopSession_alerts (s : PulsettoController) :
    (stopSession s).alerts = [] := rfl

theorem startSession_noMode (s : PulsettoController) (now : Nat)
    (h : s.currentMode = []) :
    startSession s now = ⟨s, [], ["Please select a mode first".data]⟩ := by
  unfold startSession; rw [if_pos h]

theorem startSession_state (s : PulsettoController) (now : Nat)
    (h : ¬ s.currentMode = []) :
    (startSession s now).state =
      { s with sessionActive := true, sessionStartTime := some now,
               currentIntensity :=
                 if s.intensitySliderValue > 0 then s.intensitySliderValue
                 else s.currentIntensity,
               timerInterval := true, startBtnDisabled := true } := by
  unfold startSession
  rw [if_neg h]
  simp only [setMode_state, setIntensity_state, sendCommand_state]
  split <;> simp_all

theorem connect_session (s : PulsettoController) (failAt : Option ConnectStep)
    (msg : List Char) :
    (connect s failAt msg).state.sessionActive = s.sessionActive ∧
    (connect s failAt msg).state.sessionStartTime = s.sessionStartTime := by
  cases failAt with
  | none => simp [connect, onConnected]
  | some st => cases st <;> simp [connect]

theorem handleNotification_session (s : PulsettoController) (value : List Char) :
    (handleNotification s value).sessionActive = s.sessionActive ∧
    (handleNotification s value).sessionStartTime = s.sessionStartTime := by
  unfold handleNotification
  split <;> simp

theorem statusPollTick_state (s : PulsettoController) :
    (statusPollTick s).state = s := by
  unfold statusPollTick; split <;> simp

/-! ## Claim C1 -/

/-- Claim C1, refuted at a concrete input: from the connected `readyState`,
`startSession` at time 1000 followed immediately by `stopSession` leaves
`sessionStartTime = some 1000`, not `none` — `stopSession` does not clear the
recorded session start timestamp. -/
theorem C1_counterexample :
    (startSession readyState 1000).state.sessionActive = true ∧
    (stopSession (startSession readyState 1000).state).state.sessionActive
      = false ∧
    (stopSession (startSession readyState 1000).state).state.sessionStartTime
      ≠ none := by decide

/-- Claim C1 as amended: `startSession` then immediately `stopSession` leaves
every connection (transport-handle) field unchanged and ends with
`sessionActive = false`, but `sessionStartTime` remains the recorded start
time `some now` — it is not reset to `none`. -/
theorem C1_amended (s : PulsettoController) (now : Nat)
    (h : ¬ s.currentMode = []) :
    connFields (stopSession (startSession s now).state).state = connFields s ∧
    (stopSession (startSession s now).state).state.sessionActive = false ∧
    (stopSession (startSession s now).state).state.sessionStartTime
      = some now := by
  rw [startSession_state s now h, stopSession_state]
  simp [connFields]

/-- Claim C1 witness: the amended theorem instantiated at `readyState` and
time 1000. -/
theorem C1_witness :
    connFields (stopSession (startSession readyState 1000).state).state
      = connFields readyState ∧
    (stopSession (startSession readyState 1000).state).state.sessionActive
      = false ∧
    (stopSession (startSession readyState 1000).state).state.sessionStartTime
      = some 1000 :=
  C1_amended readyState 1000 (by decide)

/-! ## Claim C2 -/

/-- Claim C2, refuted at a concrete reachable state: after construction,
successful connect, `startSession` and `stopSession` (all reachable by the
`Reachable` relation), `sessionActive = false` while `sessionStartTime` is
still set — the claimed if-and-only-if invariant fails in the
only-if direction. -/
theorem C2_counterexample :
    Reachable (stopSession (startSession readyState 999).state).state ∧
    (stopSession (startSession readyState 999).state).state.sessionActive
      = false ∧
    (stopSession (startSession readyState 999).state).state.sessionStartTime
      ≠ none :=
  ⟨Reachable.stop (Reachable.start 999
      (Reachable.connect none [] Reachable.init)),
    by decide, by decide⟩

/-- Claim C2 as amended: only the forward direction of the invariant holds.
In every reachable controller state, if `sessionActive` is true then
`sessionStartTime` is set; the converse is false because `stopSession` clears
the active flag without clearing the timestamp. -/
theorem C2_amended (s : PulsettoController) (h : Reachable s) :
    s.sessionActive = true → s.sessionStartTime ≠ none := by
  induction h with
  | init => intro ha; simp [initialState] at ha
  | @connect s failAt msg _ ih =>
      rw [(connect_session s failAt msg).1, (connect_session s failAt msg).2]
      exact ih
  | @notify s value _ ih =>
      rw [(handleNotification_session s value).1,
        (handleNotification_session s value).2]
      exact ih
  | @setMode s m _ ih => rw [setMode_state]; exact ih
  | @setIntensity s n _ ih => rw [setIntensity_state]; exact ih
  | @start s now _ ih =>
      by_cases hm : s.currentMode = []
      · rw [startSession_noMode s now hm]; exact ih
      · rw [startSession_state s now hm]; intro _; simp
  | @stop s _ _ =>
      rw [stopSession_state]; intro ha; simp at ha
  | @poll s _ ih => rw [statusPollTick_state]; exact ih
  | @preset s p now _ ih =>
      have hl : (loadPreset s p now).1 =
          startSession { s with currentMode := p.mode,
                                intensitySliderValue := p.intensity } now := rfl
      rw [hl]
      by_cases hm :
          ({ s with currentMode := p.mode,
                    intensitySliderValue := p.intensity }
            : PulsettoController).currentMode = []
      · rw [startSession_noMode _ now hm]
        simpa using ih
      · rw [startSession_state _ now hm]; intro _; simp

/-- Claim C2 witness: the amended invariant applied to the concrete reachable
state reached by connecting and starting a session at time 7. -/
theorem C2_witness :
    (startSession readyState 7).state.sessionStartTime ≠ none :=
  C2_amended (startSession readyState 7).state
    (Reachable.start 7 (Reachable.connect none [] Reachable.init))
    (by decide)

/-! ## Claim C3 -/

/-- Claim C3, refuted at a concrete input: with a session already active
(started at time 1000 from the connected `readyState`), a second
`startSession` at time 2000 overwrites `sessionStartTime` with `some 2000`
and sends commands (the mode and intensity re-send burst) — it is not a
guarded no-op, and no AlreadyActiveError exists in the code. -/
theorem C3_counterexample :
    (startSession readyState 1000).state.sessionActive = true ∧
    (startSession (startSession readyState 1000).state 2000).state.sessionStartTime
      = some 2000 ∧
    (startSession (startSession readyState 1000).state 2000).writes
      ≠ [] := by decide

/-- Claim C3 as amended: `startSession` has no already-active guard.  Called
while a session is active (on a connected state with a non-empty mode), it
re-runs the whole start sequence: it overwrites `sessionStartTime` with the
new call time, leaves `sessionActive` true, raises no error, and sends at
least one command (the SetMode re-send). -/
theorem C3_amended (s : PulsettoController) (now2 : Nat)
    (_hact : s.sessionActive = true) (hm : ¬ s.currentMode = [])
    (hw : s.writeCharacteristic = true) :
    (startSession s now2).state.sessionActive = true ∧
    (startSession s now2).state.sessionStartTime = some now2 ∧
    (startSession s now2).alerts = [] ∧
    (startSession s now2).writes ≠ [] := by
  refine ⟨?_, ?_, ?_, ?_⟩
  · rw [startSession_state s now2 hm]
  · rw [startSession_state s now2 hm]
  · unfold startSession
    rw [if_neg hm]
  · unfold startSession
    rw [if_neg hm]
    simp only [setMode_state, setIntensity_state, sendCommand_state]
    unfold setMode
    rw [sendCommand_writes]
    simp [hw]

/-- Claim C3 witness: the amended theorem instantiated at the active state
obtained by starting a session at time 1000 from `readyState`, with a second
call at time 2000. -/
theorem C3_witness :
    (startSession (startSession readyState 1000).state 2000).state.sessionActive
      = true ∧
    (startSession (startSession readyState 1000).state 2000).state.sessionStartTime
      = some 2000 ∧
    (startSession (startSession readyState 1000).state 2000).alerts = [] ∧
    (startSession (startSession readyState 1000).state 2000).writes ≠ [] :=
  C3_amended (startSession readyState 1000).state 2000
    (by decide) (by decide) (by decide)

/-! ## Claim C4 -/

/-- Claim C4, refuted at a concrete input: in the disconnected initial state
(`writeCharacteristic` not held), `setMode 'A'` performs no write but raises
no error and still changes the local mode from `'D'` to `'A'` — it is neither
guarded by a connectedness check nor a no-op. -/
theorem C4_counterexample :
    initialState.writeCharacteristic = false ∧
    (setMode initialState "A".data).writes = [] ∧
    (setMode initialState "A".data).alerts = [] ∧
    (setMode initialState "A".data).state.currentMode
      ≠ initialState.currentMode := by decide

/-- Claim C4 as amended: `setMode m` updates the local mode unconditionally
and immediately (optimistic, not waiting for a device echo).  When connected
it writes the encoded SetMode command; when not connected `sendCommand`
returns silently, so no write occurs — but no error is reported and the local
mode still changes, so the disconnected call is not a no-op error. -/
theorem C4_amended (s : PulsettoController) (m : List Char) :
    (setMode s m).state = { s with currentMode := m } ∧
    (setMode s m).alerts = [] ∧
    (setMode s m).writes =
      (if s.writeCharacteristic then [m ++ "\n".data] else []) := by
  refine ⟨setMode_state s m, ?_, ?_⟩
  · unfold setMode; rw [sendCommand_alerts]
  · unfold setMode; rw [sendCommand_writes]

/-! ## Claim C5 -/

/-- Claim C5, refuted at a concrete input: a transport failure at the
notify-characteristic resolution step of `connect` produces exactly one error
event but does not leave the controller in `Idle` — the write characteristic
resolved just before the failure is still held (so later `sendCommand` calls
would write), because the catch block performs no cleanup. -/
theorem C5_counterexample :
    (connect initialState (some .getNotifyCharacteristic) "err".data).alerts.length
      = 1 ∧
    (connect initialState (some .getNotifyCharacteristic) "err".data).state.writeCharacteristic
      = true ∧
    isIdle (connect initialState (some .getNotifyCharacteristic) "err".data).state
      = false := by decide

/-- Claim C5 as amended: a transport failure at any step of `connect`
produces exactly one error event, sends no commands, and leaves the local
Mode, Intensity and session fields untouched; but the controller does not
revert to `Idle` in general — the transport handles acquired before the
failing step keep their new values, and the state is fully unchanged only
when the failure happens at the very first step (discovery). -/
theorem C5_amended (s : PulsettoController) (step : ConnectStep)
    (msg : List Char) :
    (connect s (some step) msg).alerts = ["Failed to connect: ".data ++ msg] ∧
    (connect s (some step) msg).writes = [] ∧
    (connect s (some step) msg).state.currentMode = s.currentMode ∧
    (connect s (some step) msg).state.currentIntensity = s.currentIntensity ∧
    (connect s (some step) msg).state.sessionActive = s.sessionActive ∧
    (connect s (some step) msg).state.sessionStartTime = s.sessionStartTime ∧
    (step = ConnectStep.discovery → (connect s (some step) msg).state = s) := by
  cases step <;> simp [connect]

/-- Claim C5 witness: the amended theorem instantiated at the initial state
with a failure at the discovery step and message `"boom"`. -/
theorem C5_witness :
    (connect initialState (some .discovery) "boom".data).alerts
      = ["Failed to connect: ".data ++ "boom".data] ∧
    (connect initialState (some .discovery) "boom".data).state = initialState :=
  ⟨(C5_amended initialState .discovery "boom".data).1,
    (C5_amended initialState .discovery "boom".data).2.2.2.2.2.2 rfl⟩

/-! ## Claim C6 -/

/-- Claim C6, refuted at a concrete input: loading a preset with intensity 0
from `readyState` sets the intensity slider to 0 but leaves
`currentIntensity` at its previous value 5, because `startSession` only sends
(and locally records) the intensity when the slider value is positive. -/
theorem C6_counterexample :
    (loadPreset readyState ⟨"Z".data, "A".data, 0, 10⟩ 42).1.state.intensitySliderValue
      = 0 ∧
    (loadPreset readyState ⟨"Z".data, "A".data, 0, 10⟩ 42).1.state.currentIntensity
      = 5 := by decide

/-- Claim C6 as amended: for a preset with non-empty mode and positive
intensity, `loadPreset` sets the current mode to the preset mode and (through
the slider and `startSession`'s `setIntensity` call) the current intensity to
the preset intensity, starts a session whose `sessionStartTime` is the call
time, and schedules a one-shot `stopSession` after
`duration * 60 * 1000` milliseconds, after whose firing the session is
inactive.  For a preset with intensity 0 the slider is set but
`currentIntensity` keeps its previous value. -/
theorem C6_amended (s : PulsettoController) (p : Preset) (now : Nat)
    (hm : ¬ p.mode = []) (hi : p.intensity > 0) :
    (loadPreset s p now).1.state.currentMode = p.mode ∧
    (loadPreset s p now).1.state.currentIntensity = p.intensity ∧
    (loadPreset s p now).1.state.sessionActive = true ∧
    (loadPreset s p now).1.state.sessionStartTime = some now ∧
    (loadPreset s p now).2 = p.duration * 60 * 1000 ∧
    (stopSession (loadPreset s p now).1.state).state.sessionActive = false := by
  have hl : (loadPreset s p now).1 =
      startSession { s with currentMode := p.mode,
                            intensitySliderValue := p.intensity } now := rfl
  have hd : (loadPreset s p now).2 = p.duration * 60 * 1000 := rfl
  rw [hl, hd, startSession_state _ now hm, stopSession_state]
  simp [hi]

/-- Claim C6 witness: the amended theorem instantiated with the spec's
example preset Calm (mode `'A'`, intensity 6, 10 minutes) loaded from
`readyState` at time 1000; the scheduled delay is 600000 ms. -/
theorem C6_witness :
    (loadPreset readyState ⟨"Calm".data, "A".data, 6, 10⟩ 1000).1.state.currentMode
      = "A".data ∧
    (loadPreset readyState ⟨"Calm".data, "A".data, 6, 10⟩ 1000).1.state.currentIntensity
      = 6 ∧
    (loadPreset readyState ⟨"Calm".data, "A".data, 6, 10⟩ 1000).1.state.sessionActive
      = true ∧
    (loadPreset readyState ⟨"Calm".data, "A".data, 6, 10⟩ 1000).1.state.sessionStartTime
      = some 1000 ∧
    (loadPreset readyState ⟨"Calm".data, "A".data, 6, 10⟩ 1000).2
      = 10 * 60 * 1000 ∧
    (stopSession (loadPreset readyState ⟨"Calm".data, "A".data, 6, 10⟩ 1000).1.state).state.sessionActive
      = false :=
  C6_amended readyState ⟨"Calm".data, "A".data, 6, 10⟩ 1000
    (by decide) (by decide)

/-! ## Claim C7 -/

/-- Claim C7: calling `stopSession` when no session is active does not throw
(the embedding is a total function raising no alert) and changes no
DeviceStatus field; in particular a preset auto-stop timer firing a second
time after a manual stop (the timeout is never cancelled) finds
`sessionActive = false` and again leaves every DeviceStatus field unchanged. -/
theorem C7_theorem (s : PulsettoController) (_h : s.sessionActive = false) :
    deviceStatus (stopSession s).state = deviceStatus s ∧
    (stopSession s).alerts = [] ∧
    (stopSession s).state.sessionActive = false ∧
    deviceStatus (stopSession (stopSession s).state).state = deviceStatus s := by
  rw [stopSession_state, stopSession_state]
  refine ⟨rfl, stopSession_alerts s, rfl, rfl⟩

/-- Claim C7 witness: the theorem instantiated at the inactive state reached
by a manual stop of a session started from `readyState` — the state in which
the uncancelled preset auto-stop timer would fire. -/
theorem C7_witness :
    (stopSession (startSession readyState 5).state).state.sessionActive
      = false ∧
    deviceStatus
        (stopSession (stopSession (startSession readyState 5).state).state).state
      = deviceStatus (stopSession (startSession readyState 5).state).state :=
  ⟨by decide,
    (C7_theorem (stopSession (startSession readyState 5).state).state
      (by decide)).1⟩

/-! ## Claim C8 -/

/-- Claim C8, refuted at a concrete input: the line `"Pulsetto_Batt:mode:A"`
contains both `"Batt:"` and `"mode:"` yet is not classified as a
BatteryEvent, because the device-name rule (`startsWith "Pulsetto_"`) is
tested before the battery rule. -/
theorem C8_counterexample :
    strIncludes "Pulsetto_Batt:mode:A".data "Batt:".data = true ∧
    strIncludes "Pulsetto_Batt:mode:A".data "mode:".data = true ∧
    isBatteryEvent (decodeLine "Pulsetto_Batt:mode:A".data) = false ∧
    decodeLine "Pulsetto_Batt:mode:A".data
      = NotifyEvent.deviceNameEvent "Pulsetto_Batt:mode:A".data := by decide

/-- Claim C8 as amended: for every line not caught by the two prefix rules
(it starts with neither `"Pulsetto_"` nor `"fw:"`) that contains both
`"Batt:"` and `"mode:"`, the decoder classifies it as a BatteryEvent and not
as a ModeEvent, because the battery rule is tested before the mode rule. -/
theorem C8_amended (value : List Char)
    (h1 : strStartsWith value "Pulsetto_".data = false)
    (h2 : strStartsWith value "fw:".data = false)
    (hb : strIncludes value "Batt:".data = true)
    (_hm : strIncludes value "mode:".data = true) :
    isBatteryEvent (decodeLine value) = true ∧
    isModeEvent (decodeLine value) = false := by
  unfold decodeLine
  rw [h1, h2, hb]
  exact ⟨rfl, rfl⟩

/-- Claim C8 witness: the amended theorem instantiated at the line
`"x Batt:1 mode:A"`, which matches no prefix rule and contains both
substrings. -/
theorem C8_witness :
    isBatteryEvent (decodeLine "x Batt:1 mode:A".data) = true ∧
    isModeEvent (decodeLine "x Batt:1 mode:A".data) = false :=
  C8_amended "x Batt:1 mode:A".data
    (by decide) (by decide) (by decide) (by decide)

/-! ## Claim C9 -/

/-- Claim C9: decoding `"Pulsetto_A1B2"` yields a DeviceNameEvent with value
`"Pulsetto_A1B2"`; decoding `"mode:D"` yields a ModeEvent with label
`"BOTH"`; decoding `"Batt: 3.91"` yields a BatteryEvent with the trimmed
value `"3.91"`; and the mode mapping sends `'0'` to OFF, `'A'` to LEFT,
`'C'` to RIGHT, `'D'` to BOTH and passes any other mode string through
verbatim. -/
theorem C9_theorem :
    decodeLine "Pulsetto_A1B2".data
      = NotifyEvent.deviceNameEvent "Pulsetto_A1B2".data ∧
    decodeLine "mode:D".data = NotifyEvent.modeEvent "BOTH".data ∧
    decodeLine "Batt: 3.91".data = NotifyEvent.batteryEvent "3.91".data ∧
    modeLabelOf "0".data = "OFF".data ∧
    modeLabelOf "A".data = "LEFT".data ∧
    modeLabelOf "C".data = "RIGHT".data ∧
    modeLabelOf "D".data = "BOTH".data ∧
    (∀ m : List Char, m ≠ "0".data → m ≠ "A".data → m ≠ "C".data →
      m ≠ "D".data → modeLabelOf m = m) := by
  refine ⟨by decide, by decide, by decide, by decide, by decide, by decide,
    by decide, ?_⟩
  intro m h0 hA hC hD
  unfold modeLabelOf
  rw [if_neg h0, if_neg hA, if_neg hC, if_neg hD]

/-- Claim C9 witness: the verbatim-passthrough clause of the theorem applied
to the concrete unmapped mode string `"X7"`. -/
theorem C9_witness : modeLabelOf "X7".data = "X7".data :=
  C9_theorem.2.2.2.2.2.2.2 "X7".data
    (by decide) (by decide) (by decide) (by decide)

/-! ## Claim C10 -/

/-- Claim C10: with no write characteristic held (before any connection),
`sendCommand` returns with the state unchanged, no write and no alert, for
every command string; consequently `setMode`, `setIntensity`, `stopSession`
and the status-poll tick all perform no transport write in the disconnected
state, and the poll tick leaves the state unchanged as well. -/
theorem C10_theorem (s : PulsettoController) (cmd m : List Char) (n : Int)
    (h : s.writeCharacteristic = false) :
    sendCommand s cmd = ⟨s, [], []⟩ ∧
    (setMode s m).writes = [] ∧
    (setIntensity s n).writes = [] ∧
    (stopSession s).writes = [] ∧
    (statusPollTick s).writes = [] ∧
    (statusPollTick s).state = s := by
  refine ⟨?_, ?_, ?_, ?_, ?_, statusPollTick_state s⟩
  · unfold sendCommand; rw [if_neg (by simp [h])]
  · unfold setMode; rw [sendCommand_writes]; simp [h]
  · unfold setIntensity; rw [sendCommand_writes]; simp [h]
  · unfold stopSession
    simp only [sendCommand_state]
    split <;> (rw [sendCommand_writes]; simp [h])
  · unfold statusPollTick; rw [if_neg (by simp [h])]

/-- Claim C10 witness: the theorem instantiated at the freshly constructed
(disconnected) state with the status-poll command `Q`, mode `'A'` and
intensity 3. -/
theorem C10_witness :
    initialState.writeCharacteristic = false ∧
    sendCommand initialState "Q".data = ⟨initialState, [], []⟩ ∧
    (stopSession initialState).writes = [] :=
  ⟨rfl, (C10_theorem initialState "Q".data "A".data 3 rfl).1,
    (C10_theorem initialState "Q".data "A".data 3 rfl).2.2.2.1⟩

end Pulsetto
